import Mathlib

/-!
# Verification of flask_babel (`src/flask_babel/__init__.py`)

A shallow embedding of the locale resolution, catalog merging/caching and
translation query logic of flask_babel, together with theorems settling the
frozen claims about its specification.

Conventions used throughout:

* Python `dict` objects that only ever see `d[k]`, `d.get(k)`, `d.update(d2)`
  and `d[k] = v` are embedded as association lists with first-match lookup;
  `d.update(d2)` becomes `d2.entries ++ d.entries` (entries of `d2` shadow
  those of `d`) and `d[k] = v` becomes consing the new binding at the front.
* Python attributes read through `getattr(obj, name, None)` are embedded as
  `Option (Option α)`: the outer layer is attribute presence, the inner layer
  is the `None`-ability of the stored value.
* Exceptions that the embedded code can raise are routed through
  `Except PyError`.
* I/O performed by `babel.support.Translations.load` / plugin resource opens
  is abstracted into an environment of pure loader functions, and the number
  of loader invocations is reported so that "no I/O happened" is provable.
-/

set_option autoImplicit false

namespace FlaskBabel

/-! ## Small Python runtime model: values, `%`-interpolation, dicts -/

/-- A Python value that can appear in a translation `variables` mapping:
either a string or an integer (used for the auto-injected `num`). -/
inductive PyVal where
  | str (s : String)
  | int (n : Nat)
deriving DecidableEq, Repr

/-- `str()` of a `PyVal`, as used by the `%(name)s` conversion. -/
def pyStr : PyVal → String
  | .str s => s
  | .int n => toString n

/-- First-match association-list lookup: the embedding of Python `dict`
lookup for dicts represented with most recent binding first. -/
def alookup {α β : Type} [DecidableEq α] : List (α × β) → α → Option β
  | [], _ => none
  | (k, v) :: rest, key => if k = key then some v else alookup rest key

/-- Python `dict.setdefault(k, v)`: insert `(k, v)` (at the end, matching
insertion order) only when `k` is not already bound. -/
def setdefault (vars : List (String × PyVal)) (k : String) (v : PyVal) :
    List (String × PyVal) :=
  if (alookup vars k).isSome then vars else vars ++ [(k, v)]

/-- State of the `%`-interpolation scanner used to embed the Python form
`s % variables` with named placeholders (`%(name)s`, `%(name)d`, `%%`). -/
inductive FmtState where
  | copy
  | afterPct
  | inName (acc : List Char)
  | afterName (name : List Char)

/-- One pass of Python `%`-formatting with a mapping, restricted to the
`%(name)s` / `%(name)d` / `%%` forms (the forms the library uses).
Returns `none` where Python would raise (unknown key, bad conversion,
dangling `%`, `%d` applied to a non-integer). -/
def fmtStep (vars : List (String × PyVal)) : List Char → FmtState → Option (List Char)
  | [], .copy => some []
  | [], _ => none
  | c :: rest, .copy =>
    if c = '%' then fmtStep vars rest .afterPct
    else (fmtStep vars rest .copy).map (fun t => c :: t)
  | c :: rest, .afterPct =>
    if c = '%' then (fmtStep vars rest .copy).map (fun t => '%' :: t)
    else if c = '(' then fmtStep vars rest (.inName [])
    else none
  | c :: rest, .inName acc =>
    if c = ')' then fmtStep vars rest (.afterName acc.reverse)
    else fmtStep vars rest (.inName (c :: acc))
  | c :: rest, .afterName name =>
    if c = 's' then
      match alookup vars (String.mk name) with
      | none => none
      | some v => (fmtStep vars rest .copy).map (fun t => (pyStr v).data ++ t)
    else if c = 'd' then
      match alookup vars (String.mk name) with
      | none => none
      | some (.int n) => (fmtStep vars rest .copy).map (fun t => (toString n).data ++ t)
      | some (.str _) => none
    else none

/-- The embedding of Python `s % variables` (named-placeholder form).
`none` is a raised formatting error. -/
def pyFormat (s : String) (vars : List (String × PyVal)) : Option String :=
  (fmtStep vars s.data .copy).map String.mk

/-- Exceptions of the embedded Python code. -/
inductive PyError where
  | indexError
  | runtimeError
  | attributeError
  | formatError
deriving DecidableEq, Repr

/-! ## Catalog model (`gettext` / `babel.support` collaborators)

`GNUTranslations._catalog` maps singular message ids to strings and
`(message id, plural index)` pairs to plural-form strings; `CatKey` is that
key space. -/

/-- A key of a gettext `_catalog` dict. -/
inductive CatKey where
  | s (msgid : String)
  | p (msgid : String) (n : Nat)
deriving DecidableEq, Repr

/-- A parsed `gettext.GNUTranslations` catalog, as produced either by
`babel.support.Translations.load` from a core directory (when a `.mo` file
was found) or by `GNUTranslations(fp)` for a plugin resource.
`pluralOpt = some p` embeds `hasattr(catalog, "plural")` being true with
plural-selection function `p`; `info` embeds the `info()` metadata dict. -/
structure GCat where
  info : List (String × String)
  catalog : List (CatKey × String)
  pluralOpt : Option (Nat → Nat)

/-- Result of `babel.support.Translations.load(dirname, [locale], domain)`:
a `babel.support.NullTranslations` when no `.mo` file was found (merging it
is a no-op and its `info()` is empty), or a parsed catalog. -/
inductive LoadResult where
  | null
  | loaded (c : GCat)

/-- Result of opening/parsing the conventional plugin package
`translations/<locale>/LC_MESSAGES/<domain>.mo` resource:
`missingFile` is a raised `FileNotFoundError`, `error` any other raised
exception, `ok` a parsed `GNUTranslations`. -/
inductive PluginResult where
  | missingFile
  | error (msg : String)
  | ok (c : GCat)

/-- The default plural rule installed by `babel.support.NullTranslations`
on every (even empty) `Translations`: germanic `int(n != 1)`. -/
def germanicPlural (n : Nat) : Nat := if n = 1 then 0 else 1

/-- The composite `babel.support.Translations` object flask_babel builds:
its `_catalog` dict, its `info()` metadata and its current `plural`
function. -/
structure Translations where
  info : List (String × String)
  catalog : List (CatKey × String)
  plural : Nat → Nat

/-- `babel.support.Translations()`: empty catalog, empty metadata, germanic
plural rule. -/
def Translations.empty : Translations :=
  { info := [], catalog := [], plural := germanicPlural }

/-- `translations.merge(catalog)` (a `dict.update` of `_catalog`) followed by
the flask_babel plural workaround
`if catalog.info() and hasattr(catalog, "plural"): translations.plural = catalog.plural`. -/
def mergeAndFix (t : Translations) (g : GCat) : Translations :=
  let t1 : Translations := { t with catalog := g.catalog ++ t.catalog }
  if g.info.isEmpty then t1
  else
    match g.pluralOpt with
    | some p => { t1 with plural := p }
    | none => t1

/-- One iteration of the core-directory loop body for a given load result:
merging a `NullTranslations` is a no-op of `merge` and fails the
`catalog.info()` test, so nothing changes. -/
def mergeStep (t : Translations) (r : LoadResult) : Translations :=
  match r with
  | .null => t
  | .loaded g => mergeAndFix t g

/-- What `Domain.get_translations` returns: a fresh
`support.NullTranslations()` outside a request context, or a composite
`support.Translations`. -/
inductive TransResult where
  | nullT
  | trans (t : Translations)

/-- `ugettext` on the result: for the composite this is
`gettext.GNUTranslations.gettext` (catalog lookup, then the
`(message, plural(1))` secondary lookup, then fall back to the input);
for `NullTranslations` (no fallback installed) it returns the input. -/
def TransResult.ugettext : TransResult → String → String
  | .nullT, message => message
  | .trans t, message =>
    match alookup t.catalog (.s message) with
    | some tmsg => tmsg
    | none =>
      match alookup t.catalog (.p message (t.plural 1)) with
      | some tmsg => tmsg
      | none => message

/-- `ungettext` on the result: `gettext.GNUTranslations.ngettext` for the
composite (lookup at `(singular, plural(n))`, falling back to the English
two-way split), and the English split for `NullTranslations`. -/
def TransResult.ungettext : TransResult → String → String → Nat → String
  | .nullT, sg, pl, n => if n = 1 then sg else pl
  | .trans t, sg, pl, n =>
    match alookup t.catalog (.p sg (t.plural n)) with
    | some tmsg => tmsg
    | none => if n = 1 then sg else pl

/-! ## `Domain` and `Domain.get_translations` -/

/-- The fields of a `Domain` after `__init__` with its directory/plugin
fallbacks already resolved (the `translation_directories` /
`plugin_translation_packages` properties): the directory list, the plugin
package list, and `domain.split(";")`. -/
structure Domain where
  translation_directories : List String
  plugin_translation_packages : List String
  domain : List String

/-- Python `str.split(";")`, written as structural recursion over the
character list (so that it evaluates inside the kernel): split at every
`';'`, keeping empty pieces, never returning an empty list. -/
def splitSemiAux : List Char → List Char → List String
  | [], acc => [String.mk acc.reverse]
  | c :: rest, acc =>
    if c = ';' then String.mk acc.reverse :: splitSemiAux rest []
    else splitSemiAux rest (c :: acc)

/-- `domain.split(";")`. -/
def splitSemi (s : String) : List String := splitSemiAux s.data []

/-- `Domain.__init__`: the `domain` argument is split on `";"`. -/
def Domain.init (dirs plugins : List String) (domainArg : String) : Domain :=
  { translation_directories := dirs,
    plugin_translation_packages := plugins,
    domain := splitSemi domainArg }

/-- The per-`Domain` translation cache: `(str(locale), domain[0])` keyed
dict of composite catalogs. -/
def Cache := List ((String × String) × Translations)

/-- The I/O environment of `get_translations`: what
`support.Translations.load(dirname, [locale], domain)` yields for a core
directory, and what opening/parsing the `.mo` resource of a plugin package
yields. -/
structure TransEnv where
  loadDir : String → String → String → LoadResult
  loadPlugin : String → String → String → PluginResult

/-- The core-directory loop of `get_translations`:
`for index, dirname in enumerate(self.translation_directories)`, with
`domain = self.domain[0] if len(self.domain) == 1 else self.domain[index]`
(an out-of-range index is a raised `IndexError`), merging each loaded
catalog into the composite with the plural workaround. -/
def coreLoop (env : TransEnv) (localeStr : String) (domains : List String) :
    List String → Nat → Translations → Except PyError Translations
  | [], _, t => .ok t
  | dirname :: rest, index, t =>
    match (if domains.length = 1 then domains.get? 0 else domains.get? index) with
    | none => .error .indexError
    | some dom =>
      coreLoop env localeStr domains rest (index + 1)
        (mergeStep t (env.loadDir dirname localeStr dom))

/-- The plugin loop of `get_translations`: for each plugin package open the
conventional resource for `(locale, domain[0])`; `FileNotFoundError` is
skipped silently, any other exception is printed and skipped, and a parsed
catalog is merged with the same plural workaround. -/
def pluginLoop (env : TransEnv) (localeStr dom0 : String) :
    List String → Translations → Translations
  | [], t => t
  | pkg :: rest, t =>
    match env.loadPlugin pkg localeStr dom0 with
    | .missingFile => pluginLoop env localeStr dom0 rest t
    | .error _ => pluginLoop env localeStr dom0 rest t
    | .ok g => pluginLoop env localeStr dom0 rest (mergeAndFix t g)

/-- `Domain.get_translations`. `ctx` is the request context
(`_get_current_context()`), `localeStr` is `str(get_locale())` for the
current request. Returns the translations object, the updated cache and the
number of catalog-load I/O operations performed (one per core directory and
one per plugin package attempted; `0` on a cache hit and outside a request
context). -/
def getTranslationsFull (env : TransEnv) (d : Domain) (ctx : Option Unit)
    (localeStr : String) (cache : Cache) :
    Except PyError (TransResult × Cache × Nat) :=
  match ctx with
  | none => .ok (.nullT, cache, 0)
  | some _ =>
    match d.domain.get? 0 with
    | none => .error .indexError
    | some dom0 =>
      match alookup cache (localeStr, dom0) with
      | some t => .ok (.trans t, cache, 0)
      | none =>
        match coreLoop env localeStr d.domain d.translation_directories 0
            Translations.empty with
        | .error e => .error e
        | .ok t1 =>
          let t2 := pluginLoop env localeStr dom0 d.plugin_translation_packages t1
          let loadCount :=
            d.translation_directories.length + d.plugin_translation_packages.length
          .ok (.trans t2, ((localeStr, dom0), t2) :: cache, loadCount)

/-- `Domain.gettext(string, **variables)`:
`s = self.get_translations().ugettext(string); return s if not variables
else s % variables`. -/
def Domain.gettext (env : TransEnv) (d : Domain) (ctx : Option Unit)
    (localeStr : String) (cache : Cache) (string : String)
    (vars : List (String × PyVal)) : Except PyError (String × Cache) :=
  match getTranslationsFull env d ctx localeStr cache with
  | .error e => .error e
  | .ok (t, cache1, _) =>
    let s := t.ugettext string
    if vars.isEmpty then .ok (s, cache1)
    else
      match pyFormat s vars with
      | none => .error .formatError
      | some r => .ok (r, cache1)

/-- `Domain.ngettext(singular, plural, num, **variables)`:
`variables.setdefault("num", num)` then
`s = self.get_translations().ungettext(singular, plural, num)` then the
same interpolation step as `gettext`. -/
def Domain.ngettext (env : TransEnv) (d : Domain) (ctx : Option Unit)
    (localeStr : String) (cache : Cache) (sg pl : String) (num : Nat)
    (vars : List (String × PyVal)) : Except PyError (String × Cache) :=
  let vars := setdefault vars "num" (.int num)
  match getTranslationsFull env d ctx localeStr cache with
  | .error e => .error e
  | .ok (t, cache1, _) =>
    let s := t.ungettext sg pl num
    if vars.isEmpty then .ok (s, cache1)
    else
      match pyFormat s vars with
      | none => .error .formatError
      | some r => .ok (r, cache1)

/-! ## Request context, `get_locale`, `get_timezone`, `force_locale` -/

/-- A `babel.Locale` object as produced by `Locale.parse`. -/
structure ParsedLocale where
  ident : String
deriving DecidableEq, Repr

/-- `babel.Locale.parse` on a locale identifier string. -/
def Locale.parse (s : String) : ParsedLocale := ⟨s⟩

/-- The `SimpleNamespace` stashed on `g._flask_babel`. Each field is an
attribute: `none` means the attribute is absent, `some v` that it is set to
`v` (which may itself be Python `None`, hence the nested `Option`).
`τ` is the type of whatever object is stored in `babel_translations`. -/
structure BabelCtx (τ : Type) where
  babel_locale : Option (Option ParsedLocale) := none
  babel_tzinfo : Option (Option String) := none
  babel_translations : Option (Option τ) := none
  forced_babel_locale : Option ParsedLocale := none

/-- `getattr(obj, attr, None)` on an embedded attribute. -/
def getattrD {α : Type} (f : Option (Option α)) : Option α := f.getD none

/-- The locale-relevant part of `BabelConfiguration`: the configured default
locale identifier and the selector callback. The callback is embedded by the
value it returns for the current request (`none` = no selector configured,
`some none` = selector configured and returned `None`, `some (some r)` =
selector returned identifier `r`). -/
structure LocaleConfig where
  default_locale : String
  locale_selector : Option (Option String)

/-- `ctx.babel_locale = loc` (memoization write of `get_locale`). -/
def setLocaleAttr {τ : Type} (c : BabelCtx τ) (loc : ParsedLocale) : BabelCtx τ :=
  { c with babel_locale := some (some loc) }

/-- `get_locale()`. Returns the locale (or `None`), the request context
after the call, and the number of times the locale-selector callback was
invoked during the call. -/
def getLocale {τ : Type} (cfg : LocaleConfig) (ctx : Option (BabelCtx τ)) :
    Option ParsedLocale × Option (BabelCtx τ) × Nat :=
  match ctx with
  | none => (none, none, 0)
  | some c =>
    match getattrD c.babel_locale with
    | some loc => (some loc, some c, 0)
    | none =>
      match cfg.locale_selector with
      | none =>
        let loc := Locale.parse cfg.default_locale
        (some loc, some (setLocaleAttr c loc), 0)
      | some none =>
        let loc := Locale.parse cfg.default_locale
        (some loc, some (setLocaleAttr c loc), 1)
      | some (some rv) =>
        let loc := Locale.parse rv
        (some loc, some (setLocaleAttr c loc), 1)

/-- What the timezone-selector callback may return: `None`, a zone-name
string (passed to `pytz.timezone`), or an already-constructed timezone
object. A timezone value itself is embedded as its zone name. -/
inductive TZRet where
  | str (s : String)
  | obj (z : String)

/-- The timezone-relevant part of `BabelConfiguration`, embedded like
`LocaleConfig`. The whole configuration is `Option`al because `get_babel()`
resolves `current_app`, which raises `RuntimeError` when no application
context is bound (the situation outside any request). -/
structure TZConfig where
  default_timezone : String
  timezone_selector : Option (Option TZRet)

/-- `get_timezone()`. Faithful to the source order: the memoized attribute
is read through `getattr(ctx, "babel_tzinfo", None)` (which tolerates
`ctx = None`), but on a memoization miss `get_babel()` is evaluated — and
raises `RuntimeError` via `current_app` when there is no application
context — and the final memoization write `ctx.babel_tzinfo = tzinfo`
raises `AttributeError` when `ctx` is `None`. -/
def getTimezone {τ : Type} (cfg : Option TZConfig) (ctx : Option (BabelCtx τ)) :
    Except PyError (String × Option (BabelCtx τ)) :=
  let memo := match ctx with
    | none => none
    | some c => getattrD c.babel_tzinfo
  match memo with
  | some tz => .ok (tz, ctx)
  | none =>
    match cfg with
    | none => .error .runtimeError
    | some cfg1 =>
      let tz := match cfg1.timezone_selector with
        | none => cfg1.default_timezone
        | some none => cfg1.default_timezone
        | some (some (.str s)) => s
        | some (some (.obj z)) => z
      match ctx with
      | none => .error .attributeError
      | some c => .ok (tz, some { c with babel_tzinfo := some (some tz) })

/-- The body of `force_locale` before `yield`: memoize the parsed forced
locale, record it in `forced_babel_locale`, and set `babel_translations`
to `None`. -/
def forceLocaleEnter {τ : Type} (locale : String) (c : BabelCtx τ) : BabelCtx τ :=
  { c with
    babel_locale := some (some (Locale.parse locale)),
    forced_babel_locale := some (Locale.parse locale),
    babel_translations := some none }

/-- The `finally` block of `force_locale`: delete `forced_babel_locale` when
present, then `setattr` the saved `orig_attrs` values of
`babel_translations` and `babel_locale` back onto the context. -/
def forceLocaleExit {τ : Type} (origTrans : Option τ) (origLoc : Option ParsedLocale)
    (c : BabelCtx τ) : BabelCtx τ :=
  let c1 := match c.forced_babel_locale with
    | some _ => { c with forced_babel_locale := none }
    | none => c
  { c1 with
    babel_translations := some origTrans,
    babel_locale := some origLoc }

/-- A whole `with force_locale(locale): body` block, as a transformer of the
request context. `body` is the context transformation performed by the block
body; because the cleanup is in a `finally`, the resulting context is the
same whether the body returned normally or raised. Outside a request
context (`ctx = none`) the context manager just yields: a no-op. -/
def forceLocaleRun {τ : Type} (locale : String) (body : BabelCtx τ → BabelCtx τ)
    (ctx : Option (BabelCtx τ)) : Option (BabelCtx τ) :=
  match ctx with
  | none => none
  | some c =>
    let origTrans := getattrD c.babel_translations
    let origLoc := getattrD c.babel_locale
    some (forceLocaleExit origTrans origLoc (body (forceLocaleEnter locale c)))

/-! ## `Babel.list_translations` -/

/-- The filesystem as seen by `list_translations`: directory test and
directory listing. -/
structure FS where
  isDir : String → Bool
  listDir : String → List String

/-- `os.path.join` for the two-component joins the code performs. -/
def pathJoin (a b : String) : String := a ++ "/" ++ b

/-- Python `x.endswith(s)`, written over character lists so that it
evaluates inside the kernel. -/
def strEndsWith (x s : String) : Bool :=
  x.data.reverse.take s.data.length == s.data.reverse

/-- The inner loop of `list_translations` over one translation directory:
for each folder, when `<dirname>/<folder>/LC_MESSAGES` is a directory
containing at least one `.mo` file, `Locale.parse(folder)` is appended. -/
def scanDir (fs : FS) (dirname : String) : List ParsedLocale :=
  (fs.listDir dirname).filterMap fun folder =>
    if fs.isDir (pathJoin (pathJoin dirname folder) "LC_MESSAGES")
        && (fs.listDir (pathJoin (pathJoin dirname folder) "LC_MESSAGES")).any
          (fun x => strEndsWith x ".mo")
    then some (Locale.parse folder)
    else none

/-- `Babel.list_translations()` result list before the default-locale step:
scan every configured translation directory that exists, appending the
locales found in each. -/
def scanAll (fs : FS) (dirs : List String) : List ParsedLocale :=
  dirs.foldl
    (fun acc dirname => if fs.isDir dirname then acc ++ scanDir fs dirname else acc)
    []

/-- The final step of `list_translations`: append the parsed default locale
when it is not already in the scanned result. -/
def listTranslations (fs : FS) (dirs : List String) (default_locale : String) :
    List ParsedLocale :=
  if Locale.parse default_locale ∈ scanAll fs dirs then scanAll fs dirs
  else scanAll fs dirs ++ [Locale.parse default_locale]

/-! ## Helper lemmas -/

theorem alookup_cons_self {α β : Type} [DecidableEq α] (k : α) (v : β)
    (rest : List (α × β)) : alookup ((k, v) :: rest) k = some v := by
  simp [alookup]

theorem alookup_append_left {α β : Type} [DecidableEq α] (l1 l2 : List (α × β))
    (k : α) (v : β) (h : alookup l1 k = some v) : alookup (l1 ++ l2) k = some v := by
  induction l1 with
  | nil => simp [alookup] at h
  | cons a rest ih =>
    obtain ⟨ka, va⟩ := a
    by_cases hk : ka = k
    · subst hk
      simp [alookup] at h ⊢
      exact h
    · simp [alookup, hk] at h ⊢
      exact ih h

theorem mergeAndFix_catalog (t : Translations) (g : GCat) :
    (mergeAndFix t g).catalog = g.catalog ++ t.catalog := by
  unfold mergeAndFix
  split
  · rfl
  · split <;> rfl

theorem mergeAndFix_plural_override (t : Translations) (g : GCat) (p : Nat → Nat)
    (h1 : g.info.isEmpty = false) (h2 : g.pluralOpt = some p) :
    (mergeAndFix t g).plural = p := by
  unfold mergeAndFix
  rw [h1, h2]
  rfl

theorem setdefault_ne_nil (vars : List (String × PyVal)) (k : String) (v : PyVal) :
    (setdefault vars k v).isEmpty = false := by
  unfold setdefault
  split
  next h =>
    cases vars with
    | nil => simp [alookup] at h
    | cons a l => rfl
  next => cases vars <;> rfl

theorem getTranslationsFull_nodom (env : TransEnv) (d : Domain) (L : String)
    (cache : Cache) (hd : d.domain.get? 0 = none) :
    getTranslationsFull env d (some ()) L cache = .error .indexError := by
  simp only [getTranslationsFull, hd]

theorem getTranslationsFull_hit (env : TransEnv) (d : Domain) (L : String)
    (cache : Cache) (dom0 : String) (t : Translations)
    (hd : d.domain.get? 0 = some dom0) (hc : alookup cache (L, dom0) = some t) :
    getTranslationsFull env d (some ()) L cache = .ok (.trans t, cache, 0) := by
  simp only [getTranslationsFull, hd, hc]

theorem getTranslationsFull_miss_err (env : TransEnv) (d : Domain) (L : String)
    (cache : Cache) (dom0 : String) (e : PyError)
    (hd : d.domain.get? 0 = some dom0) (hc : alookup cache (L, dom0) = none)
    (hcore : coreLoop env L d.domain d.translation_directories 0 Translations.empty
      = .error e) :
    getTranslationsFull env d (some ()) L cache = .error e := by
  simp only [getTranslationsFull, hd, hc, hcore]

theorem getTranslationsFull_miss (env : TransEnv) (d : Domain) (L : String)
    (cache : Cache) (dom0 : String) (t1 : Translations)
    (hd : d.domain.get? 0 = some dom0) (hc : alookup cache (L, dom0) = none)
    (hcore : coreLoop env L d.domain d.translation_directories 0 Translations.empty
      = .ok t1) :
    getTranslationsFull env d (some ()) L cache
      = .ok (.trans (pluginLoop env L dom0 d.plugin_translation_packages t1),
          ((L, dom0), pluginLoop env L dom0 d.plugin_translation_packages t1) :: cache,
          d.translation_directories.length + d.plugin_translation_packages.length) := by
  simp only [getTranslationsFull, hd, hc, hcore]

/-! ## The claims -/

/-- C6: with no request context, `get_translations()` returns a null
catalog on which every lookup is identity, and `gettext` with no format
variables returns the input string unchanged. -/
theorem claim6_null_catalog_identity (env : TransEnv) (d : Domain) (L : String)
    (cache : Cache) (s : String) :
    getTranslationsFull env d none L cache = .ok (.nullT, cache, 0)
    ∧ TransResult.ugettext .nullT s = s
    ∧ Domain.gettext env d none L cache s [] = .ok (s, cache) :=
  ⟨rfl, rfl, rfl⟩

/-- C5 (evaluated at the failing input): outside any request/application
context, `get_locale()` does return `None`, but `get_timezone()` — contrary
to the claim and to its own docstring — does not: its memoization miss
reaches `get_babel()`, whose `current_app` access raises `RuntimeError`
when no application context is bound. -/
theorem claim5_no_context_evaluation (cfg : LocaleConfig) :
    @getLocale Unit cfg none = (none, none, 0)
    ∧ @getTimezone Unit none none = .error .runtimeError :=
  ⟨rfl, rfl⟩

/-- C2: a successful `get_translations()` call leaves the composite catalog
in the cache under `(str(locale), domain[0])`, and an immediately following
call with the same locale and domain returns exactly that cached value,
with the cache unchanged and zero catalog-load I/O operations. -/
theorem claim2_cache_hit_no_io (env : TransEnv) (d : Domain) (L : String)
    (cache : Cache) (res : TransResult) (cache1 : Cache) (n : Nat)
    (h : getTranslationsFull env d (some ()) L cache = .ok (res, cache1, n)) :
    getTranslationsFull env d (some ()) L cache1 = .ok (res, cache1, 0)
    ∧ ∃ dom0 t, d.domain.get? 0 = some dom0
        ∧ alookup cache1 (L, dom0) = some t ∧ res = .trans t := by
  rcases hd : d.domain.get? 0 with - | dom0
  · rw [getTranslationsFull_nodom env d L cache hd] at h
    exact Except.noConfusion h
  · rcases hc : alookup cache (L, dom0) with - | t
    · rcases hcore : coreLoop env L d.domain d.translation_directories 0
          Translations.empty with e | t1
      · rw [getTranslationsFull_miss_err env d L cache dom0 e hd hc hcore] at h
        exact Except.noConfusion h
      · rw [getTranslationsFull_miss env d L cache dom0 t1 hd hc hcore] at h
        simp only [Except.ok.injEq, Prod.mk.injEq] at h
        obtain ⟨h1, h2, -⟩ := h
        subst h1
        subst h2
        refine ⟨?_, dom0, _, rfl, alookup_cons_self _ _ _, rfl⟩
        exact getTranslationsFull_hit env d L _ dom0 _ hd (alookup_cons_self _ _ _)
    · rw [getTranslationsFull_hit env d L cache dom0 t hd hc] at h
      simp only [Except.ok.injEq, Prod.mk.injEq] at h
      obtain ⟨h1, h2, -⟩ := h
      subst h1
      subst h2
      exact ⟨getTranslationsFull_hit env d L cache dom0 t hd hc, dom0, t, rfl, hc, rfl⟩

/-- C4: inside a `force_locale(L)` block `get_locale()` returns the parsed
`L` (without touching the context or invoking the selector); the block as a
whole — its body being an arbitrary context transformation, covering both
normal and raising exits since the cleanup is in `finally` — restores the
previously memoized `babel_locale` and `babel_translations` values and
leaves no `forced_babel_locale` behind; and outside a request context the
block is a no-op. -/
theorem claim4_force_locale_scoped (τ : Type) (cfg : LocaleConfig) (L : String)
    (c : BabelCtx τ) (body : BabelCtx τ → BabelCtx τ) :
    getLocale cfg (some (forceLocaleEnter L c))
      = (some (Locale.parse L), some (forceLocaleEnter L c), 0)
    ∧ forceLocaleRun L body (some c)
      = some (forceLocaleExit (getattrD c.babel_translations)
          (getattrD c.babel_locale) (body (forceLocaleEnter L c)))
    ∧ (∀ b : BabelCtx τ,
        getattrD (forceLocaleExit (getattrD c.babel_translations)
            (getattrD c.babel_locale) b).babel_locale
          = getattrD c.babel_locale
        ∧ getattrD (forceLocaleExit (getattrD c.babel_translations)
            (getattrD c.babel_locale) b).babel_translations
          = getattrD c.babel_translations
        ∧ (forceLocaleExit (getattrD c.babel_translations)
            (getattrD c.babel_locale) b).forced_babel_locale = none)
    ∧ forceLocaleRun L body none = none := by
  refine ⟨rfl, rfl, ?_, rfl⟩
  intro b
  obtain ⟨bl, bt, btr, bf⟩ := b
  unfold forceLocaleExit
  cases bf <;> exact ⟨rfl, rfl, rfl⟩

/-- The locale the spec says a first `get_locale()` call in a request
resolves to: the identifier returned by the selector callback, parsed, or the
process-wide default when the callback is unset or returns none. -/
def specSelectedLocale (cfg : LocaleConfig) : ParsedLocale :=
  match cfg.locale_selector with
  | none => Locale.parse cfg.default_locale
  | some none => Locale.parse cfg.default_locale
  | some (some rv) => Locale.parse rv

/-- The number of selector-callback invocations the spec allows a first
`get_locale()` call: one when a callback is configured, zero otherwise. -/
def specSelectorCalls (cfg : LocaleConfig) : Nat :=
  match cfg.locale_selector with
  | none => 0
  | some _ => 1

/-- C7: on a request context with no memoized locale, `get_locale()`
invokes the configured selector callback (exactly once, and not at all when
none is configured), parses the callback result — or the default locale
when the callback is unset or returns none — into a `Locale`, memoizes it
on the context, and every later call on the resulting context returns the
memoized value with zero further callback invocations and no context
change. -/
theorem claim7_get_locale_memoized (τ : Type) (cfg : LocaleConfig)
    (c : BabelCtx τ) (h : getattrD c.babel_locale = none) :
    getLocale cfg (some c)
      = (some (specSelectedLocale cfg),
         some (setLocaleAttr c (specSelectedLocale cfg)), specSelectorCalls cfg)
    ∧ ∀ loc : ParsedLocale,
        getLocale cfg (some (setLocaleAttr c loc))
          = (some loc, some (setLocaleAttr c loc), 0) := by
  constructor
  · simp only [getLocale, h]
    cases hs : cfg.locale_selector with
    | none => simp [specSelectedLocale, specSelectorCalls, hs]
    | some o => cases o <;> simp [specSelectedLocale, specSelectorCalls, hs]
  · intro loc
    simp [getLocale, setLocaleAttr, getattrD]

/-- Witness for C7: a context with no memoized locale and a selector
returning `"fr"`: the first call parses and memoizes `fr` with one callback
invocation, later calls are pure reads. -/
theorem claim7_witness :
    getattrD (⟨none, none, none, none⟩ : BabelCtx Unit).babel_locale = none
    ∧ (getLocale ⟨"en", some (some "fr")⟩ (some (⟨none, none, none, none⟩ : BabelCtx Unit))
        = (some (specSelectedLocale ⟨"en", some (some "fr")⟩),
           some (setLocaleAttr ⟨none, none, none, none⟩
             (specSelectedLocale ⟨"en", some (some "fr")⟩)),
           specSelectorCalls ⟨"en", some (some "fr")⟩)
       ∧ ∀ loc : ParsedLocale,
           getLocale ⟨"en", some (some "fr")⟩
               (some (setLocaleAttr (⟨none, none, none, none⟩ : BabelCtx Unit) loc))
             = (some loc, some (setLocaleAttr ⟨none, none, none, none⟩ loc), 0)) :=
  ⟨rfl, claim7_get_locale_memoized Unit ⟨"en", some (some "fr")⟩
    ⟨none, none, none, none⟩ rfl⟩

theorem ugettext_found (t : Translations) (m v : String)
    (h : alookup t.catalog (.s m) = some v) :
    TransResult.ugettext (.trans t) m = v := by
  simp only [TransResult.ugettext, h]

theorem ungettext_found (t : Translations) (sg pl v : String) (n : Nat)
    (h : alookup t.catalog (.p sg (t.plural n)) = some v) :
    TransResult.ungettext (.trans t) sg pl n = v := by
  simp only [TransResult.ungettext, h]

/-- C1: with directories `[dA, dB]` holding catalogs `A` then `B`, where `A`
maps `"x"` to `"a1"` without defining plural logic and `B` maps `"x"` to
`"b1"` and defines plural logic `P`, the composite built by
`get_translations` answers `"b1"` for `"x"` and selects plurals with `P`;
and with a plugin catalog `C` (mapping `"x"` to `"c1"`, plural logic `Q`)
merged after the core directories, the composite answers `"c1"` and uses
`Q` — catalogs merge in configured order, core directories first, then
plugin packages, later catalogs winning on key collisions and on plural
logic. -/
theorem claim1_merge_order_and_plural (env : TransEnv) (dA dB dm pkg L : String)
    (cache : Cache) (A B C : GCat) (P Q : Nat → Nat)
    (hmiss : alookup cache (L, dm) = none)
    (henvA : env.loadDir dA L dm = .loaded A)
    (henvB : env.loadDir dB L dm = .loaded B)
    (hA : A.info.isEmpty = true ∨ A.pluralOpt = none)
    (hBinfo : B.info.isEmpty = false) (hBpl : B.pluralOpt = some P)
    (hAx : alookup A.catalog (.s "x") = some "a1")
    (hBx : alookup B.catalog (.s "x") = some "b1")
    (hplug : env.loadPlugin pkg L dm = .ok C)
    (hCinfo : C.info.isEmpty = false) (hCpl : C.pluralOpt = some Q)
    (hCx : alookup C.catalog (.s "x") = some "c1") :
    (∃ t cache1 n,
      getTranslationsFull env ⟨[dA, dB], [], [dm]⟩ (some ()) L cache
        = .ok (.trans t, cache1, n)
      ∧ TransResult.ugettext (.trans t) "x" = "b1" ∧ t.plural = P)
    ∧ (∃ t cache1 n,
      getTranslationsFull env ⟨[dA, dB], [pkg], [dm]⟩ (some ()) L cache
        = .ok (.trans t, cache1, n)
      ∧ TransResult.ugettext (.trans t) "x" = "c1" ∧ t.plural = Q) := by
  have hcore : coreLoop env L [dm] [dA, dB] 0 Translations.empty
      = .ok (mergeAndFix (mergeAndFix Translations.empty A) B) := by
    simp [coreLoop, henvA, henvB, mergeStep]
  constructor
  · refine ⟨mergeAndFix (mergeAndFix Translations.empty A) B, _, _,
      getTranslationsFull_miss env ⟨[dA, dB], [], [dm]⟩ L cache dm _ rfl hmiss hcore,
      ?_, ?_⟩
    · refine ugettext_found _ _ _ ?_
      rw [mergeAndFix_catalog]
      exact alookup_append_left _ _ _ _ hBx
    · exact mergeAndFix_plural_override _ _ _ hBinfo hBpl
  · have hpl : pluginLoop env L dm [pkg] (mergeAndFix (mergeAndFix Translations.empty A) B)
        = mergeAndFix (mergeAndFix (mergeAndFix Translations.empty A) B) C := by
      simp [pluginLoop, hplug]
    have hg := getTranslationsFull_miss env ⟨[dA, dB], [pkg], [dm]⟩ L cache dm _ rfl
      hmiss hcore
    rw [hpl] at hg
    refine ⟨_, _, _, hg, ?_, ?_⟩
    · refine ugettext_found _ _ _ ?_
      rw [mergeAndFix_catalog]
      exact alookup_append_left _ _ _ _ hCx
    · exact mergeAndFix_plural_override _ _ _ hCinfo hCpl

/-- Concrete catalog `A` for the C1 witness: maps `"x"` to `"a1"`, no
metadata, no plural logic. -/
def gcatA : GCat := ⟨[], [(.s "x", "a1")], none⟩

/-- Concrete plural rule `P` for the C1 witness. -/
def pluralP (n : Nat) : Nat := if n = 1 then 0 else 1

/-- Concrete plural rule `Q` for the C1 witness. -/
def pluralQ (n : Nat) : Nat := if n = 0 then 0 else 1

/-- Concrete catalog `B` for the C1 witness: maps `"x"` to `"b1"`, has
metadata and plural logic `pluralP`. -/
def gcatB : GCat := ⟨[("Language", "de")], [(.s "x", "b1")], some pluralP⟩

/-- Concrete plugin catalog `C` for the C1 witness: maps `"x"` to `"c1"`,
has metadata and plural logic `pluralQ`. -/
def gcatC : GCat := ⟨[("Language", "de")], [(.s "x", "c1")], some pluralQ⟩

/-- Concrete loader environment for the C1 witness. -/
def envC1 : TransEnv :=
  ⟨fun dir _ _ => if dir = "dA" then .loaded gcatA else .loaded gcatB,
   fun _ _ _ => .ok gcatC⟩

/-- Witness for C1 at a concrete environment, catalogs and cache. -/
theorem claim1_witness :
    (∃ t cache1 n,
      getTranslationsFull envC1 ⟨["dA", "dB"], [], ["messages"]⟩ (some ()) "de" []
        = .ok (.trans t, cache1, n)
      ∧ TransResult.ugettext (.trans t) "x" = "b1" ∧ t.plural = pluralP)
    ∧ (∃ t cache1 n,
      getTranslationsFull envC1 ⟨["dA", "dB"], ["plug"], ["messages"]⟩ (some ()) "de" []
        = .ok (.trans t, cache1, n)
      ∧ TransResult.ugettext (.trans t) "x" = "c1" ∧ t.plural = pluralQ) :=
  claim1_merge_order_and_plural envC1 "dA" "dB" "messages" "plug" "de" []
    gcatA gcatB gcatC pluralP pluralQ rfl rfl rfl (Or.inl rfl) rfl rfl rfl rfl
    rfl rfl rfl rfl

/-- Concrete loader environment for the C2 witness: one directory with no
catalog file, no plugins. -/
def envC2 : TransEnv := ⟨fun _ _ _ => .null, fun _ _ _ => .missingFile⟩

/-- Witness for C2: a first (cache-missing) call loads and stores the empty
composite; the theorem then yields that the follow-up call is a pure cache
hit. -/
theorem claim2_witness :
    getTranslationsFull envC2 ⟨["t1"], [], ["messages"]⟩ (some ()) "en"
        [(("en", "messages"), Translations.empty)]
      = .ok (.trans Translations.empty, [(("en", "messages"), Translations.empty)], 0)
    ∧ ∃ dom0 t, (⟨["t1"], [], ["messages"]⟩ : Domain).domain.get? 0 = some dom0
        ∧ alookup [(("en", "messages"), Translations.empty)] ("en", dom0) = some t
        ∧ TransResult.trans Translations.empty = TransResult.trans t :=
  claim2_cache_hit_no_io envC2 ⟨["t1"], [], ["messages"]⟩ "en" []
    (.trans Translations.empty) [(("en", "messages"), Translations.empty)] 1 rfl

/-- `get_translations()` outcomes compared while disregarding the I/O
counter (the skipped plugin still costs one open attempt). -/
def resultAndCache (r : Except PyError (TransResult × Cache × Nat)) :
    Except PyError (TransResult × Cache) :=
  match r with
  | .error e => .error e
  | .ok (t, c, _) => .ok (t, c)

theorem pluginLoop_skip (env : TransEnv) (L dom0 pkg : String)
    (ps1 ps2 : List String)
    (h : env.loadPlugin pkg L dom0 = .missingFile
      ∨ ∃ msg, env.loadPlugin pkg L dom0 = .error msg)
    (t : Translations) :
    pluginLoop env L dom0 (ps1 ++ pkg :: ps2) t
      = pluginLoop env L dom0 (ps1 ++ ps2) t := by
  induction ps1 generalizing t with
  | nil => rcases h with h | ⟨msg, h⟩ <;> simp [pluginLoop, h]
  | cons p ps ih =>
    simp only [List.cons_append, pluginLoop]
    cases env.loadPlugin p L dom0 <;> exact ih _

/-- C3: a plugin package whose conventional `.mo` resource is absent
(`FileNotFoundError`), or whose read raises any other exception, is skipped:
`get_translations` produces the same composite catalog and the same cache as
the configuration without that plugin (only the count of attempted resource
opens differs), and the failure never turns the overall resolution into an
error. -/
theorem claim3_plugin_failures_skipped (env : TransEnv) (dirs ps1 ps2 : List String)
    (pkg dom0 L : String) (dr : List String) (cache : Cache)
    (h : env.loadPlugin pkg L dom0 = .missingFile
      ∨ ∃ msg, env.loadPlugin pkg L dom0 = .error msg) :
    resultAndCache
        (getTranslationsFull env ⟨dirs, ps1 ++ pkg :: ps2, dom0 :: dr⟩ (some ()) L cache)
      = resultAndCache
        (getTranslationsFull env ⟨dirs, ps1 ++ ps2, dom0 :: dr⟩ (some ()) L cache) := by
  rcases hc : alookup cache (L, dom0) with - | t
  · rcases hcore : coreLoop env L (dom0 :: dr) dirs 0 Translations.empty with e | t1
    · rw [getTranslationsFull_miss_err env ⟨dirs, ps1 ++ pkg :: ps2, dom0 :: dr⟩
          L cache dom0 e rfl hc hcore,
        getTranslationsFull_miss_err env ⟨dirs, ps1 ++ ps2, dom0 :: dr⟩
          L cache dom0 e rfl hc hcore]
    · rw [getTranslationsFull_miss env ⟨dirs, ps1 ++ pkg :: ps2, dom0 :: dr⟩
          L cache dom0 t1 rfl hc hcore,
        getTranslationsFull_miss env ⟨dirs, ps1 ++ ps2, dom0 :: dr⟩
          L cache dom0 t1 rfl hc hcore]
      rw [pluginLoop_skip env L dom0 pkg ps1 ps2 h t1]
      rfl
  · rw [getTranslationsFull_hit env ⟨dirs, ps1 ++ pkg :: ps2, dom0 :: dr⟩
        L cache dom0 t rfl hc,
      getTranslationsFull_hit env ⟨dirs, ps1 ++ ps2, dom0 :: dr⟩
        L cache dom0 t rfl hc]

/-- Concrete loader environment for the C3 witness: the plugin named
`"badplug"` raises a non-`FileNotFoundError` exception, everything else is
missing. -/
def envC3 : TransEnv :=
  ⟨fun _ _ _ => .null,
   fun p _ _ => if p = "badplug" then .error "boom" else .missingFile⟩

/-- Witness for C3: dropping the erroring `"badplug"` between two missing
plugins changes neither the composite catalog nor the cache. -/
theorem claim3_witness :
    resultAndCache
        (getTranslationsFull envC3 ⟨["d1"], ["m1"] ++ "badplug" :: ["m2"], ["messages"]⟩
          (some ()) "en" [])
      = resultAndCache
        (getTranslationsFull envC3 ⟨["d1"], ["m1"] ++ ["m2"], ["messages"]⟩
          (some ()) "en" []) :=
  claim3_plugin_failures_skipped envC3 ["d1"] ["m1"] ["m2"] "badplug" "messages"
    "en" [] [] (Or.inr ⟨"boom", rfl⟩)

/-- C8: with the active catalog `t` (resolved through the translation
cache), `ngettext(sg, pl, num, **vars)` injects `num` into the variables
via `setdefault`, looks up the plural form at index `t.plural num`, and only
then applies `%`-interpolation to the translated string; `gettext` likewise
interpolates the translated string after the lookup. -/
theorem claim8_ngettext_num_and_order (env : TransEnv) (d : Domain) (dom0 : String)
    (dr : List String) (L : String) (cache : Cache) (t : Translations)
    (sg pl s0 tmsg tmsg1 : String) (num : Nat) (vars : List (String × PyVal))
    (hd : d.domain = dom0 :: dr)
    (hc : alookup cache (L, dom0) = some t)
    (hp : alookup t.catalog (.p sg (t.plural num)) = some tmsg)
    (hg : alookup t.catalog (.s s0) = some tmsg1)
    (hv : vars ≠ []) :
    Domain.ngettext env d (some ()) L cache sg pl num vars
      = (match pyFormat tmsg (setdefault vars "num" (.int num)) with
         | none => .error .formatError
         | some r => .ok (r, cache))
    ∧ Domain.gettext env d (some ()) L cache s0 vars
      = (match pyFormat tmsg1 vars with
         | none => .error .formatError
         | some r => .ok (r, cache)) := by
  have hdget : d.domain.get? 0 = some dom0 := by rw [hd]; rfl
  have hhit := getTranslationsFull_hit env d L cache dom0 t hdget hc
  constructor
  · simp only [Domain.ngettext, hhit, ungettext_found t sg pl tmsg num hp,
      setdefault_ne_nil, Bool.false_eq_true, if_false]
  · cases vars with
    | nil => exact absurd rfl hv
    | cons a l =>
      simp only [Domain.gettext, hhit, ugettext_found t s0 tmsg1 hg,
        List.isEmpty_cons, Bool.false_eq_true, if_false]

/-- The concrete French-style catalog for the C8 witness: a singular entry
with a named placeholder and two plural forms for `"%(num)d Apple"`, with a
plural rule mapping `0` and `1` to form `0` and everything else to form
`1`. -/
def tC8 : Translations :=
  ⟨[("Language", "fr")],
   [(.s "Hello %(name)s!", "Bonjour %(name)s !"),
    (.p "%(num)d Apple" 0, "%(num)d pomme"),
    (.p "%(num)d Apple" 1, "%(num)d pommes")],
   fun n => if n ≤ 1 then 0 else 1⟩

/-- Concrete loader environment for the C8 witness (never consulted: the
cache already holds the catalog). -/
def envC8 : TransEnv := ⟨fun _ _ _ => .null, fun _ _ _ => .missingFile⟩

/-- Witness for C8: `num = 5` selects plural form `1`, `num` is injected
into the variables, and interpolation happens on the translated strings:
`"5 pommes"` and `"Bonjour World !"`. -/
theorem claim8_witness :
    Domain.ngettext envC8 ⟨[], [], ["messages"]⟩ (some ()) "fr"
        [(("fr", "messages"), tC8)] "%(num)d Apple" "%(num)d Apples" 5
        [("name", PyVal.str "World")]
      = .ok ("5 pommes", [(("fr", "messages"), tC8)])
    ∧ Domain.gettext envC8 ⟨[], [], ["messages"]⟩ (some ()) "fr"
        [(("fr", "messages"), tC8)] "Hello %(name)s!" [("name", PyVal.str "World")]
      = .ok ("Bonjour World !", [(("fr", "messages"), tC8)]) := by
  have h := claim8_ngettext_num_and_order envC8 ⟨[], [], ["messages"]⟩ "messages" []
    "fr" [(("fr", "messages"), tC8)] tC8 "%(num)d Apple" "%(num)d Apples"
    "Hello %(name)s!" "%(num)d pommes" "Bonjour %(name)s !" 5
    [("name", PyVal.str "World")] rfl rfl rfl rfl (List.cons_ne_nil _ _)
  exact ⟨h.1.trans rfl, h.2.trans rfl⟩

theorem mem_foldl_scan (fs : FS) (x : ParsedLocale) :
    ∀ (dirs : List String) (acc : List ParsedLocale),
      (x ∈ acc ∨ ∃ dirname ∈ dirs, fs.isDir dirname = true ∧ x ∈ scanDir fs dirname) →
      x ∈ dirs.foldl
        (fun acc2 dirname =>
          if fs.isDir dirname then acc2 ++ scanDir fs dirname else acc2) acc := by
  intro dirs
  induction dirs with
  | nil =>
    intro acc h
    rcases h with h | ⟨d, hd, -, -⟩
    · exact h
    · simp at hd
  | cons dirname rest ih =>
    intro acc h
    simp only [List.foldl_cons]
    apply ih
    rcases h with h | ⟨d, hd, hdir, hx⟩
    · left
      split
      · exact List.mem_append_left _ h
      · exact h
    · rcases List.mem_cons.mp hd with heq | hd2
      · subst heq
        left
        rw [if_pos hdir]
        exact List.mem_append_right _ hx
      · exact Or.inr ⟨d, hd2, hdir, hx⟩

/-- C9: on every filesystem and directory configuration whatsoever — in
particular one with no `.mo` file in any configured translation directory —
`list_translations()` contains the parsed configured default locale; and in
addition it contains every locale folder whose `LC_MESSAGES` subdirectory
holds at least one `.mo` file in some configured, existing translation
directory. -/
theorem claim9_default_always_listed (fs : FS) (dirs : List String) (dl : String) :
    Locale.parse dl ∈ listTranslations fs dirs dl
    ∧ ∀ dirname folder : String,
        dirname ∈ dirs →
        fs.isDir dirname = true →
        folder ∈ fs.listDir dirname →
        fs.isDir (pathJoin (pathJoin dirname folder) "LC_MESSAGES") = true →
        (fs.listDir (pathJoin (pathJoin dirname folder) "LC_MESSAGES")).any
            (fun x => strEndsWith x ".mo") = true →
        Locale.parse folder ∈ listTranslations fs dirs dl := by
  constructor
  · unfold listTranslations
    split
    next hmem => exact hmem
    next => exact List.mem_append_right _ (List.mem_singleton.mpr rfl)
  · intro dirname folder h1 h2 h3 h4 h5
    have hscan : Locale.parse folder ∈ scanDir fs dirname := by
      unfold scanDir
      refine List.mem_filterMap.mpr ⟨folder, h3, ?_⟩
      simp [h4, h5]
    have hres : Locale.parse folder ∈ scanAll fs dirs :=
      mem_foldl_scan fs _ dirs [] (Or.inr ⟨dirname, h1, h2, hscan⟩)
    unfold listTranslations
    split
    next => exact hres
    next => exact List.mem_append_left _ hres

/-- A filesystem with no directories and no files at all — in particular,
zero `.mo` files exist anywhere on it. -/
def fsEmpty : FS := ⟨fun _ => false, fun _ => []⟩

/-- Concrete filesystem for the C9 witness, second part: one translation
directory `"tdir"` with a `"de"` locale folder holding `messages.mo`. -/
def fsC9 : FS :=
  ⟨fun s => s == "tdir" || s == "tdir/de/LC_MESSAGES",
   fun s =>
     if s = "tdir" then ["de"]
     else if s = "tdir/de/LC_MESSAGES" then ["messages.mo"]
     else []⟩

/-- Witness for C9: on the completely empty filesystem `fsEmpty` (zero
`.mo` files exist anywhere) the default locale `"en"` is still listed, and
on `fsC9` the on-disk locale `"de"` is listed as well. -/
theorem claim9_witness :
    Locale.parse "en" ∈ listTranslations fsEmpty ["tdir"] "en"
    ∧ Locale.parse "de" ∈ listTranslations fsC9 ["tdir"] "en" :=
  ⟨(claim9_default_always_listed fsEmpty ["tdir"] "en").1,
   (claim9_default_always_listed fsC9 ["tdir"] "en").2 "tdir" "de"
     (List.mem_singleton.mpr rfl) rfl (List.mem_singleton.mpr rfl) rfl rfl⟩

theorem coreLoop_index_error (env : TransEnv) (L : String) (domains : List String)
    (h2 : 2 ≤ domains.length) :
    ∀ (dirs : List String) (idx : Nat) (t : Translations),
      idx ≤ domains.length → domains.length < idx + dirs.length →
      coreLoop env L domains dirs idx t = .error .indexError := by
  intro dirs
  induction dirs with
  | nil =>
    intro idx t h3 h4
    simp at h4
    omega
  | cons dirname rest ih =>
    intro idx t h3 h4
    simp only [coreLoop]
    have hne : ¬domains.length = 1 := by omega
    rw [if_neg hne]
    rcases Nat.lt_or_ge idx domains.length with hlt | hge
    · rw [List.get?_eq_get hlt]
      exact ih (idx + 1) _ (by omega) (by simp only [List.length_cons] at h4 ⊢; omega)
    · rw [List.get?_eq_none.mpr hge]

/-- C10: for a `Domain` with at least two semicolon-separated domain names
but more translation directories than domain names, a cache-missing
`get_translations()` call raises an uncaught `IndexError` when it pairs the
directory at an index beyond the last domain name. -/
theorem claim10_index_error_on_mismatch (env : TransEnv) (d : Domain)
    (dom0 : String) (dr : List String) (L : String) (cache : Cache)
    (hd : d.domain = dom0 :: dr) (h2 : 2 ≤ d.domain.length)
    (hlen : d.domain.length < d.translation_directories.length)
    (hmiss : alookup cache (L, dom0) = none) :
    getTranslationsFull env d (some ()) L cache = .error .indexError := by
  have hdget : d.domain.get? 0 = some dom0 := by rw [hd]; rfl
  have hcore : coreLoop env L d.domain d.translation_directories 0 Translations.empty
      = .error .indexError :=
    coreLoop_index_error env L d.domain h2 d.translation_directories 0
      Translations.empty (Nat.zero_le _) (by omega)
  exact getTranslationsFull_miss_err env d L cache dom0 .indexError hdget hmiss hcore

/-- Witness for C10: two domain names, three translation directories, empty
cache: the call raises `IndexError`. -/
theorem claim10_witness :
    getTranslationsFull envC2 ⟨["d1", "d2", "d3"], [], ["m1", "m2"]⟩ (some ()) "en" []
      = .error .indexError :=
  claim10_index_error_on_mismatch envC2 ⟨["d1", "d2", "d3"], [], ["m1", "m2"]⟩
    "m1" ["m2"] "en" [] rfl (by decide) (by decide) rfl

end FlaskBabel
